import Mathlib

/-!
Verification of the cloudnotes note-lifecycle subsystem: a shallow embedding of
`routes/noteRoutes.js` (both variants), `services/noteService.js`,
`models/noteSchema.js` and `services/thumbnailService.js`, together with
theorems settling the specification claims about them.

JavaScript strings are embedded as Lean `String`; optional/undefined JSON
fields as `Option`; MongoDB documents as a Lean structure and a collection as
a `List`; Mongo query/sort calls as pure list operations; the filesystem and
process effects of the thumbnail service as an explicit effect trace.
-/

/-- A JS-style falsy-or: `a || b` where `a` is a possibly-undefined string.
`undefined` and the empty string are falsy; every other string (including
whitespace-only strings) is truthy. -/
def jsOr (o : Option String) (d : String) : String :=
  match o with
  | none => d
  | some s => if s = "" then d else s

/-- Whitespace characters removed by JS `String.prototype.trim` (the ASCII
ones that can occur in the titles at issue). -/
def isWsChar (c : Char) : Bool :=
  c = ' ' || c = '\t' || c = '\n' || c = '\r'

/-- Structural-list model of JS `String.prototype.trim`. -/
def trimChars (l : List Char) : List Char :=
  ((l.dropWhile isWsChar).reverse.dropWhile isWsChar).reverse

/-- JS `s.trim()` on a Lean `String`. -/
def jsTrim (s : String) : String :=
  String.mk (trimChars s.data)

/-- Structural model of JS `s.split(c)` for a one-character separator:
`"".split c = [""]`, and separators at the ends produce empty fields. -/
def splitOnChar (c : Char) : List Char → List (List Char)
  | [] => [[]]
  | x :: xs =>
    if x = c then
      [] :: splitOnChar c xs
    else
      match splitOnChar c xs with
      | [] => [[x]]
      | y :: ys => (x :: y) :: ys

/-- JS `pathname.split('/')` on a Lean `String`. -/
def splitSlash (s : String) : List String :=
  (splitOnChar '/' s.data).map String.mk

/-- Does the second list start with the first? -/
def leadsWith : List Char → List Char → Bool
  | [], _ => true
  | _ :: _, [] => false
  | p :: ps, x :: xs => p == x && leadsWith ps xs

/-- The note document of `models/noteSchema.js`: title, Cloudinary file URL,
MIME type, optional Cloudinary public id, optional thumbnail URL, owner
ObjectId reference, denormalized uploader display name and upload timestamp
(`uploadedAt`, a `Date` embedded as `Nat`). The Mongo `_id` is the `id`
field. -/
structure Note where
  id : String
  title : String
  fileUrl : String
  fileType : String
  publicId : Option String
  thumbnailUrl : Option String
  uploader : String
  uploaderName : String
  uploadedAt : Nat
deriving DecidableEq

/-- Modelled from the spec: `isValidObjectId` lives in `utils/helpers.js`,
which is not among the provided sources; the spec calls such ids "well-formed
identifiers".  A MongoDB ObjectId in string form is exactly 24 hexadecimal
characters. -/
def isValidObjectId (s : String) : Bool :=
  s.length == 24 &&
    s.data.all (fun c => c.isDigit || ('a' ≤ c && c ≤ 'f') || ('A' ≤ c && c ≤ 'F'))

/-- Mongo's descending sort key of `.sort({ uploadedAt: -1 })`: `a` precedes
`b` when `a` was uploaded no earlier than `b`. -/
def byRecency (a b : Note) : Prop :=
  b.uploadedAt ≤ a.uploadedAt

instance : DecidableRel byRecency :=
  fun a b => Nat.decLe b.uploadedAt a.uploadedAt

instance : IsTotal Note byRecency :=
  ⟨fun a b => Nat.le_total b.uploadedAt a.uploadedAt⟩

instance : IsTrans Note byRecency :=
  ⟨fun _ _ _ hab hbc => Nat.le_trans hbc hab⟩

/-- `NoteService.getAllNotes(filters)`: `Note.find(filters).sort({ uploadedAt: -1 })`.
The Mongo filter document is embedded as a boolean predicate on documents;
the sort as a sort of the matching documents by descending `uploadedAt`. -/
def getAllNotes (filters : Note → Bool) (db : List Note) : List Note :=
  List.insertionSort byRecency (db.filter filters)

/-- The filter predicate of an empty Mongo filter document `{}`: every
document matches. -/
def emptyFilter : Note → Bool := fun _ => true

/-- `Note.findById(id)` / `Note.findOne({_id: id})`: the stored document with
the given `_id`, if any. -/
def findById (db : List Note) (id : String) : Option Note :=
  db.find? (fun n => n.id == id)

/-- `NoteService.getNoteById(id)`: `null` for a malformed id, else
`Note.findById(id)` (which is `null` when no document matches). -/
def getNoteById (id : String) (db : List Note) : Option Note :=
  if isValidObjectId id then findById db id else none

/-- The query clause `{'uploader.username': identifier}` of
`NoteService.getNotesByUploader`: per `models/noteSchema.js` the `uploader`
field is an ObjectId reference, not an embedded document, so this nested-field
clause matches no stored document. -/
def uploaderUsernameMatches (_identifier : String) (_n : Note) : Bool := false

/-- `NoteService.getNotesByUploader(identifier)`: an id-shaped identifier is
queried as `{uploader: identifier}`; otherwise the `$or` of
`{uploaderName: identifier}` and `{'uploader.username': identifier}` is used.
The query is then run through `getAllNotes`. -/
def getNotesByUploader (identifier : String) (db : List Note) : List Note :=
  let query : Note → Bool :=
    if isValidObjectId identifier then
      fun n => n.uploader == identifier
    else
      fun n => (n.uploaderName == identifier) || uploaderUsernameMatches identifier n
  getAllNotes query db

/-- `Note.findByIdAndDelete(id)`: removes the document with the given `_id`. -/
def removeById (db : List Note) (id : String) : List Note :=
  db.filter (fun n => !(n.id == id))

/-- Outcome of the `DELETE /api/notes/:id` middleware chain and handler. -/
inductive DeleteOutcome where
  | deleted
  | forbidden
  | notFound
  | invalidId
deriving DecidableEq

/-- The `DELETE /api/notes/:id` route (authentication already passed, the
requester's session user id is `requesterId`).  `validateObjectId` rejects a
malformed id; `checkOwnership(Note)` — modelled from the spec, since
`middleware/auth.js` is not among the provided sources: "fails with
`Forbidden` unless `requesterId` equals the Note's owner; fails with
`NotFound` if the Note does not exist" — loads the note, answering 404 when
it is missing and 403 when the requester is not its owner; only then does the
handler run `Note.findByIdAndDelete(id)`. -/
def deleteRoute (db : List Note) (id requesterId : String) : DeleteOutcome × List Note :=
  if isValidObjectId id then
    match findById db id with
    | none => (DeleteOutcome.notFound, db)
    | some n =>
      if n.uploader = requesterId then
        (DeleteOutcome.deleted, removeById db id)
      else
        (DeleteOutcome.forbidden, db)
  else
    (DeleteOutcome.invalidId, db)

/-- Environment signals read by `services/thumbnailService.js`, plus the
outcome of each external step it can perform: whether `pdf-poppler` loaded,
whether the download of the source PDF succeeded (a failed download removes
its own partial temp file before rejecting), whether `pdfPoppler.convert`
succeeded, whether the rasterizer produced the expected
`<prefix>-1.png` name, and whether the rename to `<prefix>.png` succeeded. -/
structure ThumbEnv where
  vercel : Bool
  awsLambda : Bool
  netlify : Bool
  serverlessFlag : Bool
  popplerAvailable : Bool
  downloadOk : Bool
  convertOk : Bool
  generatedNameExists : Bool
  renameOk : Bool
deriving DecidableEq

/-- `isServerlessEnv()`: any of the `VERCEL`, `AWS_LAMBDA_FUNCTION_NAME`,
`NETLIFY` or `SERVERLESS` environment variables is set. -/
def isServerlessEnv (e : ThumbEnv) : Bool :=
  e.vercel || e.awsLambda || e.netlify || e.serverlessFlag

/-- Observable filesystem/process effects of `generatePdfThumbnailFromUrl`:
creating the thumbnails directory, issuing the HTTP download, the downloaded
temp PDF surviving the download (i.e. the temp file exists on disk), invoking
the rasterizer, attempting the rename of the generated PNG, and deleting the
temp PDF. -/
inductive FsEffect where
  | mkdirThumbs
  | httpGet
  | tempWrite
  | convert
  | renameAttempt
  | unlinkTemp
deriving DecidableEq

/-- The public URL path root `/uploads/thumbnails` of the thumbnail service. -/
def publicThumbBase : String := "/uploads/thumbnails"

/-- `generatePdfThumbnailFromUrl(noteId, pdfUrl)` of
`services/thumbnailService.js`, as a function of the environment/step
outcomes, returning the value the JS promise resolves to together with the
trace of effects actually performed.  Control flow mirrors the source: the
serverless guard and the missing-`pdf-poppler` guard return `null` before any
effect; a download failure rejects (the download's own handlers having removed
the temp file) and is caught by the outer catch; a `convert` failure jumps to
the outer catch, which returns `null` *without* reaching the
`fsp.unlink(tmpPdf)` call; on the success path a rename failure is swallowed
by its own try/catch, so the unlink of the temp file still runs. -/
def generatePdfThumbnailFromUrl (noteId : String) (env : ThumbEnv) :
    Option String × List FsEffect :=
  if isServerlessEnv env then
    (none, [])
  else if !env.popplerAvailable then
    (none, [])
  else if !env.downloadOk then
    (none, [FsEffect.mkdirThumbs, FsEffect.httpGet])
  else if !env.convertOk then
    (none, [FsEffect.mkdirThumbs, FsEffect.httpGet, FsEffect.tempWrite, FsEffect.convert])
  else
    let renames := if env.generatedNameExists then [FsEffect.renameAttempt] else []
    (some (publicThumbBase ++ "/" ++ noteId ++ ".png"),
      [FsEffect.mkdirThumbs, FsEffect.httpGet, FsEffect.tempWrite, FsEffect.convert]
        ++ renames ++ [FsEffect.unlinkTemp])

/-- The uploaded file's metadata seen by the routes (`req.file`). -/
structure FileInfo where
  originalname : String
  mimetype : String
deriving DecidableEq

/-- The request data of the `POST /api/notes/upload` routes: the optional
multipart file, the optional `title` body field, and the session user. -/
structure UploadReq where
  file : Option FileInfo
  bodyTitle : Option String
  userId : String
  userName : Option String
  userUsername : String
deriving DecidableEq

/-- The Cloudinary upload result used by the first upload variant. -/
structure CloudResult where
  secureUrl : String
  publicId : String
deriving DecidableEq

/-- The Cloudinary upload result used by the second upload variant:
`result.secure_url` plus `result.eager[0].secure_url` when the eager
first-page PNG was produced. -/
structure CloudResultEager where
  secureUrl : String
  eagerUrl : Option String
deriving DecidableEq

/-- The uniform `apiResponse` envelope, carrying the note of a successful
creation. -/
structure ApiResponse where
  status : Nat
  success : Bool
  note : Option Note
deriving DecidableEq

/-- First-variant `POST /upload` handler (authentication already passed and
the Cloudinary raw upload having succeeded with `cloud`): a missing file is a
400; otherwise a note is built (`title: req.body.title || req.file.originalname`,
no thumbnail) and saved, then `generatePdfThumbnailFromUrl` is run inside
`try/catch` — its outcome `thumbOutcome` is either a thrown error or the
resolved `Option` value — and only a non-null resolution sets
`note.thumbnailUrl` before the second save; the response is 201 with the note
in every case.  `newId` is the fresh Mongo `_id`, `now` the `uploadedAt`
default. -/
def uploadRouteV1 (db : List Note) (req : UploadReq) (cloud : CloudResult)
    (newId : String) (now : Nat) (thumbOutcome : Except String (Option String)) :
    ApiResponse × List Note :=
  match req.file with
  | none => ({ status := 400, success := false, note := none }, db)
  | some f =>
    let note : Note :=
      { id := newId
        title := jsOr req.bodyTitle f.originalname
        fileUrl := cloud.secureUrl
        fileType := f.mimetype
        publicId := some cloud.publicId
        thumbnailUrl := none
        uploader := req.userId
        uploaderName := jsOr req.userName req.userUsername
        uploadedAt := now }
    let note2 : Note :=
      match thumbOutcome with
      | Except.ok (some t) => { note with thumbnailUrl := some t }
      | _ => note
    ({ status := 201, success := true, note := some note2 }, db ++ [note2])

/-- Second-variant `POST /upload` handler: a missing file is a 400; otherwise
the note stores `title: req.body.title || (req.file.originalname || 'file.pdf')`,
`fileType: 'application/pdf'` unconditionally, and as `thumbnailUrl` the eager
first-page PNG URL when Cloudinary produced one, else `''`. -/
def uploadRouteV2 (db : List Note) (req : UploadReq) (cloud : CloudResultEager)
    (newId : String) (now : Nat) : ApiResponse × List Note :=
  match req.file with
  | none => ({ status := 400, success := false, note := none }, db)
  | some f =>
    let originalName := if f.originalname = "" then "file.pdf" else f.originalname
    let note : Note :=
      { id := newId
        title := jsOr req.bodyTitle originalName
        fileUrl := cloud.secureUrl
        fileType := "application/pdf"
        publicId := none
        thumbnailUrl := some (jsOr cloud.eagerUrl "")
        uploader := req.userId
        uploaderName := jsOr req.userName req.userUsername
        uploadedAt := now }
    ({ status := 201, success := true, note := some note }, db ++ [note])

/-- `title && String(title).trim() ? String(title).trim() : 'Untitled'` of the
`POST /create` handlers. -/
def noteTitleCreate (bodyTitle : Option String) : String :=
  match bodyTitle with
  | none => "Untitled"
  | some t => if t = "" then "Untitled" else if jsTrim t = "" then "Untitled" else jsTrim t

/-- The request body of the `POST /api/notes/create` routes, plus the session
user. -/
structure CreateReq where
  bodyTitle : Option String
  fileUrl : Option String
  fileType : Option String
  publicId : Option String
  thumbnailUrl : Option String
  userId : String
  userName : Option String
  userUsername : String
deriving DecidableEq

/-- First-variant `POST /create` handler: 400 unless `fileUrl` is a non-empty
string; the note stores the trimmed-or-defaulted title,
`fileType || 'application/pdf'`, `publicId || undefined`, and no thumbnail;
after the save, thumbnail generation runs under the same swallow-errors
`try/catch` as the upload route. -/
def createRouteV1 (db : List Note) (req : CreateReq) (newId : String) (now : Nat)
    (thumbOutcome : Except String (Option String)) : ApiResponse × List Note :=
  match req.fileUrl with
  | none => ({ status := 400, success := false, note := none }, db)
  | some fu =>
    if fu = "" then
      ({ status := 400, success := false, note := none }, db)
    else
      let note : Note :=
        { id := newId
          title := noteTitleCreate req.bodyTitle
          fileUrl := fu
          fileType := jsOr req.fileType "application/pdf"
          publicId :=
            match req.publicId with
            | some s => if s = "" then none else some s
            | none => none
          thumbnailUrl := none
          uploader := req.userId
          uploaderName := jsOr req.userName req.userUsername
          uploadedAt := now }
      let note2 : Note :=
        match thumbOutcome with
        | Except.ok (some t) => { note with thumbnailUrl := some t }
        | _ => note
      ({ status := 201, success := true, note := some note2 }, db ++ [note2])

/-- The split of a character list at its first `:`: the text before it and
the text after it, when a `:` is present at all. -/
def splitAtColon : List Char → Option (List Char × List Char)
  | [] => none
  | x :: xs =>
    if x = ':' then some ([], xs)
    else
      match splitAtColon xs with
      | some (b, a) => some (x :: b, a)
      | none => none

/-- A character allowed in a URL scheme after its leading letter. -/
def isSchemeChar (c : Char) : Bool :=
  c.isAlphanum || c = '+' || c = '-' || c = '.'

/-- The WHATWG special schemes that take an authority and tolerate missing or
repeated slashes after the `:`.  `file` is handled by the generic branches
below (its host may be empty), so it is not listed here. -/
def specialSchemes : List String := ["http", "https", "ws", "wss", "ftp"]

/-- Model of the pathname of the WHATWG `new URL(s)` builtin, as used by
`derivePublicIdFromUrl`.  A URL is a scheme (a letter followed by
letters/digits/`+`/`-`/`.`) and a `:`; anything else makes the constructor
throw, embedded as `none`.  After the scheme (query and fragment stripped):
a special scheme (`http`, `https`, `ws`, `wss`, `ftp`) skips any run of
slashes, requires a non-empty host, and the pathname is what follows the
host with a leading `/`; any other scheme followed by `//` takes a
(possibly empty) host the same way; and any other scheme without `//` has an
opaque or path-absolute pathname — the remainder verbatim, as in
`mailto:a/b` or `foo:/upload/x.png`. -/
def parseUrlPathname (s : String) : Option String :=
  match splitAtColon s.data with
  | none => none
  | some (sch, rest) =>
    match sch with
    | [] => none
    | c0 :: cs =>
      if !(c0.isAlpha && cs.all isSchemeChar) then none
      else
        let schemeStr := String.mk ((c0 :: cs).map Char.toLower)
        let restNoQuery := rest.takeWhile (fun c => c != '?' && c != '#')
        if specialSchemes.contains schemeStr then
          let afterSlashes := restNoQuery.dropWhile (fun c => c = '/' || c = '\\')
          match splitOnChar '/' afterSlashes with
          | [] => none
          | host :: segs =>
            if host.isEmpty then none
            else some (String.mk ('/' :: List.intercalate ['/'] segs))
        else
          if leadsWith ['/', '/'] restNoQuery then
            match splitOnChar '/' (restNoQuery.drop 2) with
            | [] => none
            | _host :: segs => some (String.mk ('/' :: List.intercalate ['/'] segs))
          else
            some (String.mk restNoQuery)

/-- `/^v\d+$/i`: a `v` or `V` followed by one or more digits. -/
def isVersionSeg (s : String) : Bool :=
  match s.data with
  | [] => false
  | c :: rest => (c == 'v' || c == 'V') && !rest.isEmpty && rest.all Char.isDigit

/-- `last.replace(/\.[^.]+$/, '')`: drop a final `.ext` whose extension is
non-empty and dot-free. -/
def stripExt (s : String) : String :=
  let parts := splitOnChar '.' s.data
  match parts.getLast? with
  | some last =>
    if 2 ≤ parts.length && !last.isEmpty then
      String.mk (List.intercalate ['.'] parts.dropLast)
    else s
  | none => s

/-- The combination `parts.findIndex(p => p === 'upload')` followed by
`parts.slice(uploadIdx + 1)` of `derivePublicIdFromUrl`: the segments after
the first `upload` segment, or `null` when `findIndex` answers `-1`. -/
def dropThroughUpload : List String → Option (List String)
  | [] => none
  | x :: xs => if x == "upload" then some xs else dropThroughUpload xs

/-- `derivePublicIdFromUrl(url)` of the second route variant: parse the URL
(`null` on a constructor throw), split the pathname on `/`, find the `upload`
segment (`null` when absent), drop a leading `v<digits>` version segment,
`null` when nothing remains, else join the remaining folders with the final
segment stripped of its extension. -/
def derivePublicIdFromUrl (url : String) : Option String :=
  match parseUrlPathname url with
  | none => none
  | some pathname =>
    match dropThroughUpload (splitSlash pathname) with
    | none => none
    | some afterUpload =>
      let withoutVersion :=
        match afterUpload with
        | [] => []
        | a :: rest => if isVersionSeg a then rest else a :: rest
      match withoutVersion.getLast? with
      | none => none
      | some last =>
        some (String.intercalate "/" (withoutVersion.dropLast ++ [stripExt last]))

/-- Model of the Cloudinary URL builder `cloudinary.url(pid + '.png', {...})`
used for the deterministic first-page PNG thumbnail: the cloud name comes from
environment configuration outside the sources, so it is fixed here; what the
claims need is that the result is a function of the public id alone. -/
def cloudinaryPngUrl (pid : String) : String :=
  "https://res.cloudinary.com/cloud/image/upload/c_limit,q_auto,w_600/pg_1/" ++ pid ++ ".png"

/-- Second-variant `POST /create` handler: 400 unless `fileUrl` is a non-empty
string; a provided non-blank `thumbnailUrl` is trimmed and stored; otherwise a
deterministic first-page PNG URL is derived from `fileUrl` via
`derivePublicIdFromUrl` under the handler's `if (pid)` truthiness guard — a
`null` or empty-string public id leaves the thumbnail as the empty string. -/
def createRouteV2 (db : List Note) (req : CreateReq) (newId : String) (now : Nat) :
    ApiResponse × List Note :=
  match req.fileUrl with
  | none => ({ status := 400, success := false, note := none }, db)
  | some fu =>
    if fu = "" then
      ({ status := 400, success := false, note := none }, db)
    else
      let provided :=
        match req.thumbnailUrl with
        | some t => if jsTrim t = "" then "" else jsTrim t
        | none => ""
      let finalThumb :=
        if provided = "" then
          match derivePublicIdFromUrl fu with
          | some pid => if pid = "" then "" else cloudinaryPngUrl pid
          | none => ""
        else provided
      let note : Note :=
        { id := newId
          title := noteTitleCreate req.bodyTitle
          fileUrl := fu
          fileType := jsOr req.fileType "application/pdf"
          publicId := none
          thumbnailUrl := some finalThumb
          uploader := req.userId
          uploaderName := jsOr req.userName req.userUsername
          uploadedAt := now }
      ({ status := 201, success := true, note := some note }, db ++ [note])

/-- A well-formed 24-hex-character ObjectId used in concrete checks. -/
def hexId24 : String := "0123456789abcdef01234567"

/-- A concrete stored note used in concrete checks. -/
def sampleNote : Note :=
  { id := hexId24
    title := "Algebra"
    fileUrl := "https://res.cloudinary.com/cloud/raw/upload/v1/pdf_uploads/alg.pdf"
    fileType := "application/pdf"
    publicId := none
    thumbnailUrl := none
    uploader := "1111aaaa2222bbbb3333cccc"
    uploaderName := "Alice"
    uploadedAt := 10 }

/-- A concrete uploaded PDF file. -/
def wFile : FileInfo := { originalname := "notes.pdf", mimetype := "application/pdf" }

/-- A concrete upload request with a PDF file and a non-blank title. -/
def wReq : UploadReq :=
  { file := some wFile
    bodyTitle := some "My Notes"
    userId := "1111aaaa2222bbbb3333cccc"
    userName := some "Alice"
    userUsername := "alice" }

/-- A concrete upload request whose title is whitespace-only. -/
def wReqWs : UploadReq := { wReq with bodyTitle := some " " }

/-- A concrete upload request whose declared MIME type is not a PDF type. -/
def wReqTxt : UploadReq :=
  { wReq with file := some { originalname := "notes.txt", mimetype := "text/plain" } }

/-- A concrete Cloudinary raw-upload result. -/
def wCloud : CloudResult :=
  { secureUrl := "https://res.cloudinary.com/cloud/raw/upload/v1/pdf_uploads/notes.pdf"
    publicId := "pdf_uploads/notes" }

/-- A concrete Cloudinary eager-upload result. -/
def wCloudEager : CloudResultEager :=
  { secureUrl := "https://res.cloudinary.com/cloud/image/upload/v1/pdf_uploads/notes.pdf"
    eagerUrl := none }

/-- A concrete metadata-create request whose `fileUrl` has no `upload` path
segment and whose `thumbnailUrl` is absent. -/
def wCreq : CreateReq :=
  { bodyTitle := some "My Notes"
    fileUrl := some "https://example.com/files/x.pdf"
    fileType := some "application/pdf"
    publicId := none
    thumbnailUrl := none
    userId := "1111aaaa2222bbbb3333cccc"
    userName := some "Alice"
    userUsername := "alice" }

/-- A concrete thumbnail-service environment: Vercel serverless. -/
def wEnvServerless : ThumbEnv :=
  { vercel := true, awsLambda := false, netlify := false, serverlessFlag := false
    popplerAvailable := true, downloadOk := true, convertOk := true
    generatedNameExists := true, renameOk := true }

/-- A concrete thumbnail-service environment in which rasterization fails. -/
def envConvertFails : ThumbEnv :=
  { vercel := false, awsLambda := false, netlify := false, serverlessFlag := false
    popplerAvailable := true, downloadOk := true, convertOk := false
    generatedNameExists := true, renameOk := true }

/-- A concrete thumbnail-service environment in which the rename of the
generated PNG fails but everything else succeeds. -/
def envRenameFails : ThumbEnv :=
  { vercel := false, awsLambda := false, netlify := false, serverlessFlag := false
    popplerAvailable := true, downloadOk := true, convertOk := true
    generatedNameExists := true, renameOk := false }

/-! ## Helper lemmas -/

/-- Membership in a `getAllNotes` result is membership in the store together
with satisfaction of the filter. -/
theorem mem_getAllNotes {p : Note → Bool} {db : List Note} {n : Note} :
    n ∈ getAllNotes p db ↔ n ∈ db ∧ p n = true := by
  unfold getAllNotes
  rw [List.mem_insertionSort]
  exact List.mem_filter

/-- `dropThroughUpload` answers `none` exactly when no `upload` segment is
present. -/
theorem dropThroughUpload_eq_none {l : List String} (h : "upload" ∉ l) :
    dropThroughUpload l = none := by
  induction l with
  | nil => rfl
  | cons x xs ih =>
    have hx : ¬(x == "upload") = true := by
      simp only [beq_iff_eq]
      intro hxe
      exact h (hxe ▸ List.mem_cons_self x xs)
    simp only [dropThroughUpload, if_neg hx]
    exact ih (fun hm => h (List.mem_cons_of_mem x hm))

/-- `generatePdfThumbnailFromUrl` resolves to `null` whenever any of its
failure conditions holds: serverless environment, missing `pdf-poppler`,
failed download, or failed rasterization. -/
theorem genThumb_none_of_failure (noteId : String) (env : ThumbEnv)
    (h : isServerlessEnv env = true ∨ env.popplerAvailable = false ∨
      env.downloadOk = false ∨ env.convertOk = false) :
    (generatePdfThumbnailFromUrl noteId env).1 = none := by
  rcases env with ⟨v, a, nl, sf, pa, dl, cv, ge, ro⟩
  simp only [isServerlessEnv] at h
  cases v <;> cases a <;> cases nl <;> cases sf <;> cases pa <;> cases dl <;> cases cv <;>
    simp_all [generatePdfThumbnailFromUrl, isServerlessEnv]

/-! ## Claim theorems -/

/-- C3: for every filter, the list operation returns notes pairwise sorted by
`uploadedAt` in non-increasing order, and with the empty filter it returns
exactly the stored notes (as a permutation). -/
theorem list_sorted_by_recency (filters : Note → Bool) (db : List Note) :
    List.Pairwise (fun a b => b.uploadedAt ≤ a.uploadedAt) (getAllNotes filters db)
      ∧ (getAllNotes emptyFilter db).Perm db := by
  constructor
  · exact List.sorted_insertionSort byRecency (db.filter filters)
  · unfold getAllNotes
    have h1 : db.filter emptyFilter = db := by simp [emptyFilter]
    rw [h1]
    exact List.perm_insertionSort byRecency db

/-- C5: `getNoteById` returns an empty result (and cannot raise) whenever the
id is malformed or no stored note carries it. -/
theorem getById_none_on_malformed_or_missing (id : String) (db : List Note)
    (h : isValidObjectId id = false ∨ ∀ n ∈ db, n.id ≠ id) :
    getNoteById id db = none := by
  rcases h with h | h
  · simp [getNoteById, h]
  · unfold getNoteById findById
    split
    · rw [List.find?_eq_none]
      intro n hn
      simpa using h n hn
    · rfl

/-- Witness for C5 at a malformed id. -/
theorem getById_none_on_malformed_or_missing_witness :
    getNoteById "zz" [sampleNote] = none :=
  getById_none_on_malformed_or_missing "zz" [sampleNote] (Or.inl (by decide))

/-- C8: in a serverless environment the thumbnail generator returns
immediately with `null` and performs no effect at all — no download, no file
write, no rasterizer invocation. -/
theorem serverless_skips_thumbnail (noteId : String) (env : ThumbEnv)
    (h : isServerlessEnv env = true) :
    generatePdfThumbnailFromUrl noteId env = (none, []) := by
  simp [generatePdfThumbnailFromUrl, h]

/-- Witness for C8 on a Vercel environment. -/
theorem serverless_skips_thumbnail_witness :
    generatePdfThumbnailFromUrl "n1" wEnvServerless = (none, []) :=
  serverless_skips_thumbnail "n1" wEnvServerless rfl

/-- C9: `getNotesByUploader` resolves an id-shaped identifier as an owner-id
query and any other identifier as an owner-display-name equality query. -/
theorem listByUploader_resolution (identifier : String) (db : List Note) (n : Note) :
    n ∈ getNotesByUploader identifier db ↔
      n ∈ db ∧ (if isValidObjectId identifier = true then n.uploader = identifier
                else n.uploaderName = identifier) := by
  unfold getNotesByUploader
  by_cases h : isValidObjectId identifier = true
  · simp [h, mem_getAllNotes]
  · simp [h, mem_getAllNotes, uploaderUsernameMatches]

/-- C1: with a well-formed id, the delete route succeeds exactly when the
requester is the stored owner; a missing note yields `NotFound`; a non-owner
request yields `Forbidden`, leaves the store unchanged, and leaves the note
retrievable by `getNoteById`. -/
theorem delete_requires_ownership (db : List Note) (id requesterId : String)
    (hid : isValidObjectId id = true) :
    ((deleteRoute db id requesterId).1 = DeleteOutcome.deleted ↔
      ∃ n, findById db id = some n ∧ n.uploader = requesterId)
    ∧ (findById db id = none → (deleteRoute db id requesterId).1 = DeleteOutcome.notFound)
    ∧ (∀ n, findById db id = some n → n.uploader ≠ requesterId →
        (deleteRoute db id requesterId).1 = DeleteOutcome.forbidden
        ∧ (deleteRoute db id requesterId).2 = db
        ∧ getNoteById id (deleteRoute db id requesterId).2 = some n) := by
  refine ⟨?_, ?_, ?_⟩
  · cases hfind : findById db id with
    | none => simp [deleteRoute, hid, hfind]
    | some n =>
      by_cases howner : n.uploader = requesterId
      · simp [deleteRoute, hid, hfind, howner]
      · simp only [deleteRoute, hid, if_true, hfind, if_neg howner]
        constructor
        · intro hcontr
          exact absurd hcontr (by simp)
        · rintro ⟨m, hm, hmo⟩
          cases Option.some.inj hm
          exact absurd hmo howner
  · intro hfind
    simp [deleteRoute, hid, hfind]
  · intro n hfind hne
    simp [deleteRoute, hid, hfind, hne, getNoteById]

/-- Witness for C1: a non-owner delete of a stored note is `Forbidden`,
changes nothing, and the note stays retrievable. -/
theorem delete_requires_ownership_witness :
    (deleteRoute [sampleNote] hexId24 "9999aaaa2222bbbb3333cccc").1 = DeleteOutcome.forbidden
    ∧ (deleteRoute [sampleNote] hexId24 "9999aaaa2222bbbb3333cccc").2 = [sampleNote]
    ∧ getNoteById hexId24 (deleteRoute [sampleNote] hexId24 "9999aaaa2222bbbb3333cccc").2
        = some sampleNote :=
  (delete_requires_ownership [sampleNote] hexId24 "9999aaaa2222bbbb3333cccc" (by decide)).2.2
    sampleNote (by decide) (by decide)

/-- C7 counterexample: with rasterization failing (everything before it
succeeding), the downloaded temp PDF exists but the run ends without deleting
it — the `unlink` is never reached from the rasterization-failure exit path. -/
theorem temp_file_leak_cx :
    FsEffect.tempWrite ∈ (generatePdfThumbnailFromUrl "n1" envConvertFails).2
    ∧ FsEffect.unlinkTemp ∉ (generatePdfThumbnailFromUrl "n1" envConvertFails).2 := by
  decide

/-- C7 amended: whenever the temp PDF is actually written, it is deleted
exactly when the rasterizer call succeeds — the success path deletes it even
when the rename fails, but a rasterization failure leaks it. -/
theorem temp_deleted_iff_convert_ok (noteId : String) (env : ThumbEnv)
    (h : FsEffect.tempWrite ∈ (generatePdfThumbnailFromUrl noteId env).2) :
    FsEffect.unlinkTemp ∈ (generatePdfThumbnailFromUrl noteId env).2 ↔ env.convertOk = true := by
  rcases env with ⟨v, a, nl, sf, pa, dl, cv, ge, ro⟩
  cases v <;> cases a <;> cases nl <;> cases sf <;> cases pa <;> cases dl <;> cases cv <;>
    cases ge <;> simp_all [generatePdfThumbnailFromUrl, isServerlessEnv]

/-- Witness for C7 amended: on the rename-failure path the temp file is still
deleted. -/
theorem temp_deleted_iff_convert_ok_witness :
    FsEffect.unlinkTemp ∈ (generatePdfThumbnailFromUrl "n1" envRenameFails).2 :=
  (temp_deleted_iff_convert_ok "n1" envRenameFails (by decide)).mpr rfl

/-- C2: when the primary persistence succeeds, a thumbnail-generation failure
— whether the generator resolved to `null` or threw — never changes the
creation outcome: both creation handlers still answer 201 with the created
note and an absent `thumbnailUrl`; and the generator itself resolves to
`null` under every modelled failure reason (serverless environment, missing
rasterization dependency, download error, rasterization error). -/
theorem thumbnail_failure_nonfatal
    (db : List Note) (req : UploadReq) (creq : CreateReq) (cloud : CloudResult)
    (newId : String) (now : Nat) (f : FileInfo) (fu : String)
    (out : Except String (Option String)) (noteId : String) (env : ThumbEnv)
    (hout : out = Except.ok none ∨ ∃ e, out = Except.error e) :
    (req.file = some f →
      (uploadRouteV1 db req cloud newId now out).1.status = 201
      ∧ ∃ n, (uploadRouteV1 db req cloud newId now out).1.note = some n
          ∧ n.thumbnailUrl = none)
    ∧ (creq.fileUrl = some fu → fu ≠ "" →
      (createRouteV1 db creq newId now out).1.status = 201
      ∧ ∃ n, (createRouteV1 db creq newId now out).1.note = some n
          ∧ n.thumbnailUrl = none)
    ∧ (isServerlessEnv env = true ∨ env.popplerAvailable = false ∨
        env.downloadOk = false ∨ env.convertOk = false →
      (generatePdfThumbnailFromUrl noteId env).1 = none) := by
  refine ⟨?_, ?_, genThumb_none_of_failure noteId env⟩
  · intro hf
    rcases hout with hout | ⟨e, hout⟩ <;> subst hout <;> simp [uploadRouteV1, hf]
  · intro hfu hne
    rcases hout with hout | ⟨e, hout⟩ <;> subst hout <;> simp [createRouteV1, hfu, hne]

/-- Witness for C2: a concrete upload whose thumbnail generation resolved to
`null` still answers 201 with a thumbnail-less note. -/
theorem thumbnail_failure_nonfatal_witness :
    (uploadRouteV1 [] wReq wCloud "id2" 3 (Except.ok none)).1.status = 201
    ∧ ∃ n, (uploadRouteV1 [] wReq wCloud "id2" 3 (Except.ok none)).1.note = some n
        ∧ n.thumbnailUrl = none :=
  (thumbnail_failure_nonfatal [] wReq wCreq wCloud "id2" 3 wFile "https://example.com/x.pdf"
    (Except.ok none) "n1" wEnvServerless (Or.inl rfl)).1 rfl

/-- C4 counterexample: in the server-upload path a whitespace-only title —
blank after trimming — is truthy for the JS `||`, so it is stored as given
instead of defaulting to the original filename. -/
theorem upload_title_whitespace_cx :
    jsTrim " " = ""
    ∧ (∃ n, (uploadRouteV1 [] wReqWs wCloud "id4" 3 (Except.ok none)).1.note = some n
        ∧ n.title = " " ∧ n.title ≠ "notes.pdf") := by
  exact ⟨rfl, ⟨_, rfl, rfl, by decide⟩⟩

/-- C4 amended: the server-upload path defaults the title to the original
filename only when the title is missing or the empty string (whitespace-only
titles are stored as given); the metadata-create path defaults any blank
title (missing, empty, or whitespace-only after trimming) to `"Untitled"` and
stores a non-blank title trimmed. -/
theorem title_defaulting
    (db : List Note) (req : UploadReq) (creq : CreateReq) (cloud : CloudResult)
    (newId : String) (now : Nat) (f : FileInfo) (fu t : String)
    (out : Except String (Option String)) :
    (req.file = some f → (req.bodyTitle = none ∨ req.bodyTitle = some "") →
      ∃ n, (uploadRouteV1 db req cloud newId now out).1.note = some n
        ∧ n.title = f.originalname)
    ∧ (req.file = some f → req.bodyTitle = some t → t ≠ "" →
      ∃ n, (uploadRouteV1 db req cloud newId now out).1.note = some n
        ∧ n.title = t)
    ∧ (creq.fileUrl = some fu → fu ≠ "" →
      ((creq.bodyTitle = none ∨ ∃ s, creq.bodyTitle = some s ∧ jsTrim s = "") →
        ∃ n, (createRouteV1 db creq newId now out).1.note = some n
          ∧ n.title = "Untitled")
      ∧ (creq.bodyTitle = some t → jsTrim t ≠ "" →
        ∃ n, (createRouteV1 db creq newId now out).1.note = some n
          ∧ n.title = jsTrim t)) := by
  refine ⟨?_, ?_, ?_⟩
  · intro hf hblank
    rcases hblank with hb | hb <;>
      rcases out with e | v <;> try rcases v with _ | tv
    all_goals simp [uploadRouteV1, hf, hb, jsOr]
  · intro hf ht hne
    rcases out with e | v <;> try rcases v with _ | tv
    all_goals simp [uploadRouteV1, hf, ht, hne, jsOr]
  · intro hfu hne
    constructor
    · intro hblank
      have htitle : noteTitleCreate creq.bodyTitle = "Untitled" := by
        rcases hblank with hb | ⟨s, hb, hs⟩
        · simp [noteTitleCreate, hb]
        · by_cases hse : s = ""
          · simp [noteTitleCreate, hb, hse]
          · simp [noteTitleCreate, hb, hse, hs]
      rcases out with e | v <;> try rcases v with _ | tv
      all_goals simp [createRouteV1, hfu, hne, htitle]
    · intro ht hts
      have hte : t ≠ "" := by
        intro hcontr
        exact hts (by simp [hcontr, jsTrim, trimChars])
      have htitle : noteTitleCreate creq.bodyTitle = jsTrim t := by
        simp [noteTitleCreate, ht, hte, hts]
      rcases out with e | v <;> try rcases v with _ | tv
      all_goals simp [createRouteV1, hfu, hne, htitle]

/-- Witness for C4 amended: a non-blank title in the upload path is stored as
given. -/
theorem title_defaulting_witness :
    ∃ n, (uploadRouteV1 [] wReq wCloud "id4b" 3 (Except.ok none)).1.note = some n
      ∧ n.title = "My Notes" :=
  (title_defaulting [] wReq wCreq wCloud "id4b" 3 wFile "https://example.com/x.pdf" "My Notes"
    (Except.ok none)).2.1 rfl rfl (by decide)

/-- C6 counterexample: an upload declaring the non-PDF MIME type `text/plain`
is not rejected: the first upload variant answers 201, persists the note, and
stores the declared type verbatim — no `UnsupportedType` failure exists in
the route. -/
theorem upload_accepts_nonpdf_cx :
    (uploadRouteV1 [] wReqTxt wCloud "id6" 3 (Except.ok none)).1.status = 201
    ∧ (uploadRouteV1 [] wReqTxt wCloud "id6" 3 (Except.ok none)).1.success = true
    ∧ (uploadRouteV1 [] wReqTxt wCloud "id6" 3 (Except.ok none)).2.length = 1
    ∧ ∃ n, (uploadRouteV1 [] wReqTxt wCloud "id6" 3 (Except.ok none)).1.note = some n
        ∧ n.fileType = "text/plain" := by
  exact ⟨rfl, rfl, rfl, _, rfl, rfl⟩

/-- C6 amended: the upload routes perform no MIME-type validation at all —
with a file present they answer 201 for every declared MIME type, the first
variant storing the declared type verbatim and the second storing
`application/pdf` unconditionally; the only pre-storage check is file
presence, a missing file being a 400. -/
theorem upload_no_mime_validation
    (db : List Note) (req : UploadReq) (cloud : CloudResult) (cloud2 : CloudResultEager)
    (newId : String) (now : Nat) (out : Except String (Option String)) (f : FileInfo) :
    (req.file = some f →
      (uploadRouteV1 db req cloud newId now out).1.status = 201
      ∧ (∃ n, (uploadRouteV1 db req cloud newId now out).1.note = some n
          ∧ n.fileType = f.mimetype)
      ∧ (uploadRouteV2 db req cloud2 newId now).1.status = 201
      ∧ ∃ n, (uploadRouteV2 db req cloud2 newId now).1.note = some n
          ∧ n.fileType = "application/pdf")
    ∧ (req.file = none →
      (uploadRouteV1 db req cloud newId now out).1.status = 400
      ∧ (uploadRouteV2 db req cloud2 newId now).1.status = 400) := by
  constructor
  · intro hf
    refine ⟨?_, ?_, ?_, ?_⟩ <;>
      rcases out with e | v <;> try rcases v with _ | tv
    all_goals simp [uploadRouteV1, uploadRouteV2, hf]
  · intro hf
    exact ⟨by simp [uploadRouteV1, hf], by simp [uploadRouteV2, hf]⟩

/-- Witness for C6 amended: the concrete `text/plain` upload goes through both
variants with a 201. -/
theorem upload_no_mime_validation_witness :
    (uploadRouteV1 [] wReqTxt wCloud "id6b" 3 (Except.ok none)).1.status = 201
    ∧ (∃ n, (uploadRouteV1 [] wReqTxt wCloud "id6b" 3 (Except.ok none)).1.note = some n
        ∧ n.fileType = "text/plain")
    ∧ (uploadRouteV2 [] wReqTxt wCloudEager "id6b" 3).1.status = 201
    ∧ ∃ n, (uploadRouteV2 [] wReqTxt wCloudEager "id6b" 3).1.note = some n
        ∧ n.fileType = "application/pdf" :=
  (upload_no_mime_validation [] wReqTxt wCloud wCloudEager "id6b" 3 (Except.ok none)
    { originalname := "notes.txt", mimetype := "text/plain" }).1 rfl

/-- C10: the public-id derivation is total and fails soft — it answers `null`
when the URL constructor would throw and when the pathname carries no
`upload` segment — and the second-variant create handler, whenever the
request supplies no usable `thumbnailUrl`, stores the empty string when the
derivation answers `null` (or the falsy empty-string public id, per the
handler's `if (pid)` guard) and the deterministic Cloudinary first-page PNG
URL of the derived public id otherwise. -/
theorem derive_thumbnail_total_and_stored
    (s p : String) (db : List Note) (req : CreateReq) (newId : String) (now : Nat)
    (fu : String) :
    (parseUrlPathname s = none → derivePublicIdFromUrl s = none)
    ∧ (parseUrlPathname s = some p → "upload" ∉ splitSlash p →
        derivePublicIdFromUrl s = none)
    ∧ (req.fileUrl = some fu → fu ≠ "" →
        (req.thumbnailUrl = none ∨ ∃ t, req.thumbnailUrl = some t ∧ jsTrim t = "") →
        (derivePublicIdFromUrl fu = none ∨ derivePublicIdFromUrl fu = some "" →
          ∃ n, (createRouteV2 db req newId now).1.note = some n
            ∧ n.thumbnailUrl = some "")
        ∧ ∀ pid, derivePublicIdFromUrl fu = some pid → pid ≠ "" →
            ∃ n, (createRouteV2 db req newId now).1.note = some n
              ∧ n.thumbnailUrl = some (cloudinaryPngUrl pid)) := by
  refine ⟨?_, ?_, ?_⟩
  · intro h
    simp [derivePublicIdFromUrl, h]
  · intro h hmem
    simp [derivePublicIdFromUrl, h, dropThroughUpload_eq_none hmem]
  · intro hfu hne hblank
    have hprov :
        (match req.thumbnailUrl with
          | some t => if jsTrim t = "" then "" else jsTrim t
          | none => "") = "" := by
      rcases hblank with hb | ⟨t, hb, ht⟩
      · simp [hb]
      · simp [hb, ht]
    constructor
    · intro hd
      rcases hd with hd | hd
      · simp [createRouteV2, hfu, hne, hprov, hd]
      · simp [createRouteV2, hfu, hne, hprov, hd]
    · intro pid hd hpid
      simp [createRouteV2, hfu, hne, hprov, hd, hpid]

/-- Witness for C10: a well-formed URL without an `upload` segment derives no
public id, and the create handler then stores the empty-string thumbnail. -/
theorem derive_thumbnail_total_and_stored_witness :
    ∃ n, (createRouteV2 [] wCreq "id10" 3).1.note = some n ∧ n.thumbnailUrl = some "" :=
  ((derive_thumbnail_total_and_stored "x" "/" [] wCreq "id10" 3
    "https://example.com/files/x.pdf").2.2 rfl (by decide) (Or.inl rfl)).1
    (Or.inl (by decide))
